import Mathlib

/-!
Verification of the advertisement REST API (aiohttp service).

This file shallowly embeds the request-handling layer of the service:
`auth.py` (token verification), `schema.py` (pydantic request validation),
and the handlers of `server_async.py` (list / get / create / update /
delete / search), together with the error middleware's translation of
faults to HTTP statuses.

Modelling conventions:
* The advertisement table is a `List Advertisement` in physical row order;
  the SQL `ORDER BY created_at DESC` (which guarantees nothing about the
  relative order of equal timestamps) is modelled as a stable sort of that
  list, so ties keep physical order.
* Header and token text is `List Char`; titles, descriptions and messages
  are `String`.  Python string splitting, slicing, integer floor division
  (with its `ZeroDivisionError`) and SQL `ILIKE` pattern matching (with
  `%` / `_` wildcards and backslash escape) are reproduced exactly.
* The JWT library is an external collaborator; it is represented by a
  parameter `verify : List Char → TokenResult` giving, for each token
  string, the verification outcome (`valid uid`, `expired`, `malformed`),
  which `decode_jwt_token` maps to results exactly as `auth.py` does.
* A handler returns `Except HandlerFault T`: `HttpError` for the raised
  structured errors, `zeroDivision` for the unhandled Python fault; the
  error middleware's translation to a status code is `responseStatus`.
  A handler that raises does so before any commit, so an `.error` result
  carries no store mutation; handlers that mutate return the new store.
* pydantic's per-field error dictionaries are abstracted to the list of
  offending field names; JSON bodies are represented post-parsing, with
  `Option` for absent fields (explicit JSON `null`s are not modelled).
-/

/-- Error body of a response: the plain message of an `HttpError`, or the
pydantic validation error list (abstracted to the offending field names). -/
inductive ErrorPayload where
  | text (msg : String)
  | validation (fields : List String)
deriving DecidableEq

/-- The `HttpError` exception of `errors.py`: a status code and a message. -/
structure HttpError where
  status_code : Nat
  message : ErrorPayload
deriving DecidableEq

/-- A request-scoped failure: a raised `HttpError`, or Python's
`ZeroDivisionError` escaping from the `//` in the pages computation. -/
inductive HandlerFault where
  | http (e : HttpError)
  | zeroDivision
deriving DecidableEq

/-- Status code produced by `error_middleware` for a fault: an `HttpError`
keeps its own status, any other exception becomes 500. -/
def faultStatus : HandlerFault → Nat
  | .http e => e.status_code
  | .zeroDivision => 500

/-- Error body produced by `error_middleware` for a fault. -/
def faultMessage : HandlerFault → ErrorPayload
  | .http e => e.message
  | .zeroDivision => .text ("integer division or modulo by zero")

/-- Status of a finished request: the handler's success status if it
returned, otherwise the middleware's translation of the fault. -/
def responseStatus (success : Nat) : Except HandlerFault α → Nat
  | .ok _ => success
  | .error f => faultStatus f

/-- Outcome of verifying one bearer token, as reported by the JWT
library: a payload carrying `user_id`, or one of its two failures. -/
inductive TokenResult where
  | valid (user_id : Nat)
  | expired
  | malformed
deriving DecidableEq

/-- `decode_jwt_token` of `auth.py`: translate the two JWT failures into
distinct 401 `HttpError`s, pass a valid payload's `user_id` through. -/
def decode_jwt_token (verify : List Char → TokenResult) (token : List Char) :
    Except HttpError Nat :=
  match verify token with
  | .valid uid => .ok uid
  | .expired => .error ⟨401, .text ("Token expired")⟩
  | .malformed => .error ⟨401, .text ("Invalid token")⟩

/-- Python's `str.startswith`, on character lists: first argument is the
candidate leading segment, second the full text. -/
def startsWithChars : List Char → List Char → Bool
  | [], _ => true
  | _ :: _, [] => false
  | c :: cs, d :: ds => c == d && startsWithChars cs ds

/-- Python's `split(' ')` on a character list, keeping empty pieces. -/
def splitOnSpace : List Char → List (List Char)
  | [] => [[]]
  | c :: rest =>
    let r := splitOnSpace rest
    if c = ' ' then [] :: r
    else
      match r with
      | [] => [[c]]
      | w :: ws => (c :: w) :: ws

/-- The `auth_header.split(' ')[1]` step of `get_user_id_from_token`. -/
def extractBearerToken (h : List Char) : List Char :=
  (splitOnSpace h).getD 1 []

/-- `get_user_id_from_token` of `server_async.py`: 401 "Authorization
required" when the header is absent or lacks the `Bearer ` marker, else
decode the token after the first space. -/
def get_user_id_from_token (verify : List Char → TokenResult)
    (authHeader : Option (List Char)) : Except HttpError Nat :=
  match authHeader with
  | none => .error ⟨401, .text ("Authorization required")⟩
  | some h =>
    if startsWithChars (("Bearer ").data) h then
      decode_jwt_token verify (extractBearerToken h)
    else
      .error ⟨401, .text ("Authorization required")⟩

/-- The `try: get_user_id_from_token(...) except HttpError: pass` wrapper
used by the read handlers: any failure leaves the caller anonymous. -/
def resolveOptionalCaller (verify : List Char → TokenResult)
    (authHeader : Option (List Char)) : Option Nat :=
  match get_user_id_from_token verify authHeader with
  | .ok uid => some uid
  | .error _ => none

/-- A row of the `advertisements` table (`models_async.py`): the ORM
`Advertisement` with its server-assigned id and creation timestamp. -/
structure Advertisement where
  id : Nat
  title : String
  description : String
  created_at : Nat
  user_id : Nat
deriving DecidableEq

/-- The JSON rendering of one advertisement (`Advertisement.json` plus the
`is_owner` flag the read handlers attach). -/
structure AdView where
  id : Nat
  title : String
  description : String
  created_at : Nat
  user_id : Nat
  is_owner : Bool
deriving DecidableEq

/-- Python `(current_user_id == ad.user_id) if current_user_id else False`:
an absent caller, and also the falsy caller id 0, yield `false`. -/
def isOwnerFlag (cur : Option Nat) (ownerId : Nat) : Bool :=
  match cur with
  | none => false
  | some u => if u = 0 then false else u == ownerId

/-- Build the JSON object returned for one advertisement. -/
def Advertisement.view (a : Advertisement) (cur : Option Nat) : AdView :=
  ⟨a.id, a.title, a.description, a.created_at, a.user_id,
    isOwnerFlag cur a.user_id⟩

/-- Forget the `is_owner` flag of a rendered advertisement, recovering the
stored row; used to compare what two requests saw of the store. -/
def stripView (v : AdView) : Advertisement :=
  ⟨v.id, v.title, v.description, v.created_at, v.user_id⟩

/-- The comparison of `ORDER BY created_at DESC`: `a` may come before `b`
when `a` is at least as new. -/
def adBefore (a b : Advertisement) : Prop :=
  b.created_at ≤ a.created_at

instance : DecidableRel adBefore :=
  fun a b => Nat.decLe b.created_at a.created_at

instance : IsTotal Advertisement adBefore :=
  ⟨fun a b => Nat.le_total b.created_at a.created_at⟩

instance : IsTrans Advertisement adBefore :=
  ⟨fun _ _ _ hab hbc => Nat.le_trans hbc hab⟩

/-- The `ORDER BY created_at DESC` step: a stable sort of the rows by
creation timestamp, newest first; equal timestamps keep physical order
(the database promises nothing about them). -/
def sortAds (l : List Advertisement) : List Advertisement :=
  List.insertionSort adBefore l

/-- `SELECT` with the optional `user_id` equality filter of the list
endpoint. -/
def filteredAds (store : List Advertisement) (userFilter : Option Int) :
    List Advertisement :=
  match userFilter with
  | none => store
  | some u => store.filter (fun a => (a.user_id : Int) == u)

/-- Python list slicing `l[a:b]` with step 1: negative indices count from
the end, then both bounds are clamped to `[0, len(l)]`. -/
def pySlice (l : List α) (a b : Int) : List α :=
  let n : Int := l.length
  let a2 := if a < 0 then max (n + a) 0 else min a n
  let b2 := if b < 0 then max (n + b) 0 else min b n
  (l.drop a2.toNat).take (b2 - a2).toNat

/-- Python `//` on integers: floor division, raising `ZeroDivisionError`
for a zero divisor. -/
def pyFloorDiv (n d : Int) : Except HandlerFault Int :=
  if d = 0 then .error .zeroDivision else .ok (Int.fdiv n d)

/-- `store.find?` by primary key, as `session.get(Advertisement, ad_id)`. -/
def findAd (store : List Advertisement) (ad_id : Nat) : Option Advertisement :=
  store.find? (fun a => a.id == ad_id)

/-- Body of `POST /advertisements` after JSON parsing; `none` marks an
absent field (`CreateAdvertisementRequest` requires all three). -/
structure CreatePayload where
  title : Option String
  description : Option String
  owner : Option String
deriving DecidableEq

/-- Body of `PATCH /advertisements/{id}` after JSON parsing; every field
of `UpdateAdvertisementRequest` is optional. -/
structure UpdatePayload where
  title : Option String
  description : Option String
  owner : Option String
  created_at : Option Nat
deriving DecidableEq

/-- `validate_title` of `schema.py`: between 3 and 200 characters. -/
def titleOk (t : String) : Bool :=
  3 ≤ t.length && t.length ≤ 200

/-- `validate_description` of `schema.py`: at least 10 characters. -/
def descriptionOk (d : String) : Bool :=
  10 ≤ d.length

/-- `validate_owner` of `schema.py`: between 2 and 100 characters. -/
def ownerOk (o : String) : Bool :=
  2 ≤ o.length && o.length ≤ 100

/-- Fields of a create body that pydantic reports as erroneous: a field
that is missing, or fails its validator. -/
def createFieldErrors (p : CreatePayload) : List String :=
  (match p.title with
   | none => ["title"]
   | some t => if titleOk t then [] else ["title"]) ++
  (match p.description with
   | none => ["description"]
   | some d => if descriptionOk d then [] else ["description"]) ++
  (match p.owner with
   | none => ["owner"]
   | some o => if ownerOk o then [] else ["owner"])

/-- `validate(CreateAdvertisementRequest, ...)`: all three fields must be
present and valid, else a 400 `HttpError` listing the failures. -/
def validateCreate (p : CreatePayload) :
    Except HttpError (String × String × String) :=
  match p.title, p.description, p.owner with
  | some t, some d, some o =>
    if titleOk t && descriptionOk d && ownerOk o then .ok (t, d, o)
    else .error ⟨400, .validation (createFieldErrors p)⟩
  | _, _, _ => .error ⟨400, .validation (createFieldErrors p)⟩

/-- Fields of an update body that pydantic reports as erroneous: a field
that is present yet fails its validator (`created_at` has no validator). -/
def updateFieldErrors (p : UpdatePayload) : List String :=
  (match p.title with
   | none => []
   | some t => if titleOk t then [] else ["title"]) ++
  (match p.description with
   | none => []
   | some d => if descriptionOk d then [] else ["description"]) ++
  (match p.owner with
   | none => []
   | some o => if ownerOk o then [] else ["owner"])

/-- `validate(UpdateAdvertisementRequest, ...)`: the provided-field set,
or a 400 `HttpError` listing the failures. -/
def validateUpdate (p : UpdatePayload) : Except HttpError UpdatePayload :=
  if updateFieldErrors p = [] then .ok p
  else .error ⟨400, .validation (updateFieldErrors p)⟩

/-- The two `if "field" in validated_data` assignments of the update
handler: only title and description are ever copied onto the row. -/
def applyUpdate (a : Advertisement) (vd : UpdatePayload) : Advertisement :=
  { a with
    title := vd.title.getD a.title
    description := vd.description.getD a.description }

/-- SQL `LIKE` matching on character lists, fuel-indexed so that it is
structurally recursive: `%` matches any sequence, `_` any one character,
and backslash escapes the following pattern character; other characters
match themselves.  The fuel only needs to exceed the combined length of
pattern and text. -/
def likeMatchFuel : Nat → List Char → List Char → Bool
  | 0, _, _ => false
  | _ + 1, [], s => s.isEmpty
  | f + 1, c :: ps, [] =>
    if c = '%' then likeMatchFuel f ps [] else false
  | f + 1, c :: ps, d :: s2 =>
    if c = '%' then
      likeMatchFuel f ps (d :: s2) || likeMatchFuel f (c :: ps) s2
    else if c = '\\' then
      match ps with
      | [] => false
      | p :: ps2 => (p == d) && likeMatchFuel f ps2 s2
    else
      (c == '_' || c == d) && likeMatchFuel f ps s2

/-- SQL `LIKE`: does the pattern match the whole text? -/
def likeMatch (p s : List Char) : Bool :=
  likeMatchFuel (p.length + s.length + 1) p s

/-- Case-normalization used to model `ILIKE`. -/
def lowerChars (l : List Char) : List Char :=
  l.map Char.toLower

/-- SQL `ILIKE`: `LIKE` after lowercasing both pattern and text. -/
def ilike (pattern : List Char) (text : String) : Bool :=
  likeMatch (lowerChars pattern) (lowerChars text.data)

/-- The `f'%{query_text}%'` pattern the search handler interpolates the
raw query into. -/
def searchPattern (q : String) : List Char :=
  '%' :: (q.data ++ ['%'])

/-- The `WHERE title ILIKE '%q%' OR description ILIKE '%q%'` filter. -/
def adMatches (q : String) (a : Advertisement) : Bool :=
  ilike (searchPattern q) a.title || ilike (searchPattern q) a.description

/-- JSON body of `GET /advertisements`. -/
structure ListResponse where
  advertisements : List AdView
  total : Nat
  page : Int
  per_page : Int
  pages : Int
deriving DecidableEq

/-- JSON body of `GET /advertisements/search`. -/
structure SearchResponse where
  query : String
  results : List AdView
  count : Nat
deriving DecidableEq

/-- `list_advertisements` of `server_async.py` (JSON branch): filter,
sort newest first, paginate with Python slicing, resolve the caller only
for the `is_owner` flags, and compute `pages = (total + per_page - 1) //
per_page` — the one step that can raise `ZeroDivisionError`. -/
def list_advertisements (store : List Advertisement) (page per_page : Int)
    (userFilter : Option Int) (verify : List Char → TokenResult)
    (authHeader : Option (List Char)) : Except HandlerFault ListResponse :=
  let all_ads := sortAds (filteredAds store userFilter)
  let total := all_ads.length
  let start := (page - 1) * per_page
  let paginated := pySlice all_ads start (start + per_page)
  let cur := resolveOptionalCaller verify authHeader
  match pyFloorDiv ((total : Int) + per_page - 1) per_page with
  | .error f => .error f
  | .ok pages =>
    .ok ⟨paginated.map (fun a => a.view cur), total, page, per_page, pages⟩

/-- `get_advertisement` of `server_async.py` (JSON branch): 404 when the
id resolves to no row, else the row with its `is_owner` flag. -/
def get_advertisement (store : List Advertisement) (ad_id : Nat)
    (verify : List Char → TokenResult) (authHeader : Option (List Char)) :
    Except HandlerFault AdView :=
  match findAd store ad_id with
  | none => .error (.http ⟨404, .text ("advertisement not found")⟩)
  | some ad => .ok (ad.view (resolveOptionalCaller verify authHeader))

/-- `create_advertisement` of `server_async.py`: resolve the caller (401
when that fails), validate the body, insert a row with a fresh id and the
server clock, and answer with the new id (status 201). -/
def create_advertisement (store : List Advertisement)
    (verify : List Char → TokenResult) (authHeader : Option (List Char))
    (payload : CreatePayload) (newId now : Nat) :
    Except HandlerFault (Nat × List Advertisement) :=
  match get_user_id_from_token verify authHeader with
  | .error e => .error (.http e)
  | .ok user_id =>
    match validateCreate payload with
    | .error e => .error (.http e)
    | .ok (t, d, _o) =>
      .ok (newId, store ++ [⟨newId, t, d, now, user_id⟩])

/-- `update_advertisement` of `server_async.py`: resolve the caller,
validate the body, 404 when the row is absent, 403 when the caller is not
the stored owner, else copy title/description and answer with the id. -/
def update_advertisement (store : List Advertisement) (ad_id : Nat)
    (verify : List Char → TokenResult) (authHeader : Option (List Char))
    (payload : UpdatePayload) : Except HandlerFault (Nat × List Advertisement) :=
  match get_user_id_from_token verify authHeader with
  | .error e => .error (.http e)
  | .ok user_id =>
    match validateUpdate payload with
    | .error e => .error (.http e)
    | .ok vd =>
      match findAd store ad_id with
      | none => .error (.http ⟨404, .text ("advertisement not found")⟩)
      | some ad =>
        if ad.user_id ≠ user_id then
          .error (.http ⟨403, .text ("You can only edit your own advertisements")⟩)
        else
          .ok (ad.id, store.map (fun a => if a.id == ad_id then applyUpdate a vd else a))

/-- `delete_advertisement` of `server_async.py`: resolve the caller, 404
when the row is absent, 403 when the caller is not the stored owner, else
remove the row (status 204, empty body). -/
def delete_advertisement (store : List Advertisement) (ad_id : Nat)
    (verify : List Char → TokenResult) (authHeader : Option (List Char)) :
    Except HandlerFault (List Advertisement) :=
  match get_user_id_from_token verify authHeader with
  | .error e => .error (.http e)
  | .ok user_id =>
    match findAd store ad_id with
    | none => .error (.http ⟨404, .text ("advertisement not found")⟩)
    | some ad =>
      if ad.user_id ≠ user_id then
        .error (.http ⟨403, .text ("You can only delete your own advertisements")⟩)
      else
        .ok (store.filter (fun a => a.id != ad_id))

/-- `search_advertisements` of `server_async.py` (JSON branch): 400 for an
empty query, else the `ILIKE`-filtered rows sorted newest first, with the
caller resolved only for the `is_owner` flags, and their count. -/
def search_advertisements (store : List Advertisement) (q : String)
    (verify : List Char → TokenResult) (authHeader : Option (List Char)) :
    Except HandlerFault SearchResponse :=
  if q = "" then .error (.http ⟨400, .text ("search query is required")⟩)
  else
    let ads := sortAds (store.filter (adMatches q))
    let cur := resolveOptionalCaller verify authHeader
    .ok ⟨q, ads.map (fun a => a.view cur), ads.length⟩

/-! ### Properties of the `LIKE` matcher -/

/-- The result of `likeMatchFuel` does not depend on the fuel, as long as
the fuel exceeds the combined length of pattern and text. -/
theorem likeMatchFuel_congr : ∀ (f g : Nat) (p s : List Char),
    p.length + s.length < f → p.length + s.length < g →
    likeMatchFuel f p s = likeMatchFuel g p s := by
  intro f
  induction f with
  | zero => intro g p s hf hg; exact absurd hf (by omega)
  | succ f ih =>
    intro g p s hf hg
    cases g with
    | zero => exact absurd hg (by omega)
    | succ g =>
      cases p with
      | nil => rfl
      | cons c ps =>
        cases s with
        | nil =>
          simp only [likeMatchFuel]
          by_cases hc : c = '%'
          · simp only [if_pos hc]
            exact ih g ps [] (by simp at hf ⊢; omega) (by simp at hg ⊢; omega)
          · simp only [if_neg hc]
        | cons d s2 =>
          simp only [likeMatchFuel]
          by_cases hc : c = '%'
          · simp only [if_pos hc]
            rw [ih g ps (d :: s2) (by simp at hf ⊢; omega) (by simp at hg ⊢; omega),
              ih g (c :: ps) s2 (by simp at hf ⊢; omega) (by simp at hg ⊢; omega)]
          · by_cases hb : c = '\\'
            · simp only [if_neg hc, if_pos hb]
              cases ps with
              | nil => rfl
              | cons p2 ps2 =>
                dsimp only
                rw [ih g ps2 s2 (by simp at hf ⊢; omega) (by simp at hg ⊢; omega)]
            · simp only [if_neg hc, if_neg hb]
              rw [ih g ps s2 (by simp at hf ⊢; omega) (by simp at hg ⊢; omega)]

/-- One-step unfolding of the fuelled matcher at a leading `%` and a
non-empty text. -/
theorem likeMatchFuel_succ_pct_cons (f : Nat) (ps : List Char) (d : Char)
    (s2 : List Char) :
    likeMatchFuel (f + 1) ('%' :: ps) (d :: s2) =
      (likeMatchFuel f ps (d :: s2) || likeMatchFuel f ('%' :: ps) s2) := rfl

/-- One-step unfolding of the fuelled matcher at an ordinary pattern
character and a non-empty text. -/
theorem likeMatchFuel_succ_plain_cons (f : Nat) (c : Char) (ps : List Char)
    (d : Char) (s2 : List Char) (h1 : c ≠ '%') (h2 : c ≠ '\\') :
    likeMatchFuel (f + 1) (c :: ps) (d :: s2) =
      ((c == '_' || c == d) && likeMatchFuel f ps s2) := by
  simp only [likeMatchFuel, if_neg h1, if_neg h2]

/-- One-step unfolding of the fuelled matcher at an ordinary pattern
character and the empty text. -/
theorem likeMatchFuel_succ_plain_nil (f : Nat) (c : Char) (ps : List Char)
    (h1 : c ≠ '%') :
    likeMatchFuel (f + 1) (c :: ps) [] = false := by
  simp only [likeMatchFuel, if_neg h1]

/-- Unfolding: a leading `%` against a cons text either drops the `%` or
consumes one text character. -/
theorem likeMatch_pct_cons (ps : List Char) (d : Char) (s2 : List Char) :
    likeMatch ('%' :: ps) (d :: s2) =
      (likeMatch ps (d :: s2) || likeMatch ('%' :: ps) s2) := by
  unfold likeMatch
  rw [likeMatchFuel_succ_pct_cons,
    likeMatchFuel_congr (('%' :: ps).length + (d :: s2).length)
      (ps.length + (d :: s2).length + 1) ps (d :: s2) (by simp only [List.length_cons]; omega) (by simp only [List.length_cons]; omega),
    likeMatchFuel_congr (('%' :: ps).length + (d :: s2).length)
      (('%' :: ps).length + s2.length + 1) ('%' :: ps) s2 (by simp only [List.length_cons]; omega) (by simp only [List.length_cons]; omega)]

/-- Unfolding: an ordinary pattern character (not `%` and not the escape
character) against a cons text. -/
theorem likeMatch_plain_cons (c : Char) (ps : List Char) (d : Char) (s2 : List Char)
    (h1 : c ≠ '%') (h2 : c ≠ '\\') :
    likeMatch (c :: ps) (d :: s2) = ((c == '_' || c == d) && likeMatch ps s2) := by
  unfold likeMatch
  rw [likeMatchFuel_succ_plain_cons ((c :: ps).length + (d :: s2).length) c ps d s2 h1 h2,
    likeMatchFuel_congr ((c :: ps).length + (d :: s2).length) (ps.length + s2.length + 1)
      ps s2 (by simp only [List.length_cons]; omega) (by omega)]

/-- Unfolding: an ordinary pattern character never matches the empty text. -/
theorem likeMatch_plain_nil (c : Char) (ps : List Char) (h1 : c ≠ '%') :
    likeMatch (c :: ps) [] = false := by
  unfold likeMatch
  rw [likeMatchFuel_succ_plain_nil ((c :: ps).length + ([] : List Char).length) c ps h1]

/-- The bare pattern `%` matches every text. -/
theorem likeMatch_pct_all (s : List Char) : likeMatch ['%'] s = true := by
  induction s with
  | nil => rfl
  | cons d s2 ih => rw [likeMatch_pct_cons, ih, Bool.or_true]

/-- A leading `%` matches exactly when the rest of the pattern matches
some suffix of the text. -/
theorem likeMatch_pct_iff (ps : List Char) : ∀ s : List Char,
    likeMatch ('%' :: ps) s = true ↔ ∃ t, t <:+ s ∧ likeMatch ps t = true := by
  intro s
  induction s with
  | nil =>
    rw [show likeMatch ('%' :: ps) [] = likeMatch ps [] from rfl]
    simp [ List.suffix_nil]
  | cons d s2 ih =>
    rw [likeMatch_pct_cons, Bool.or_eq_true, ih]
    constructor
    · rintro (h | ⟨t, ht, hm⟩)
      · exact ⟨d :: s2, List.suffix_refl _, h⟩
      · exact ⟨t, ht.trans (List.suffix_cons d s2), hm⟩
    · rintro ⟨t, ht, hm⟩
      rcases List.suffix_cons_iff.mp ht with h | h
      · exact Or.inl (h ▸ hm)
      · exact Or.inr ⟨t, h, hm⟩

/-- A query character is plain when it is none of the three characters
`ILIKE` treats specially. -/
def plainChar (c : Char) : Prop :=
  c ≠ '%' ∧ c ≠ '_' ∧ c ≠ '\\'

instance (c : Char) : Decidable (plainChar c) :=
  inferInstanceAs (Decidable (c ≠ '%' ∧ c ≠ '_' ∧ c ≠ '\\'))

/-- A plain pattern followed by `%` matches exactly the texts it is a
leading segment of. -/
theorem likeMatch_lit (q : List Char) (hq : ∀ c ∈ q, plainChar c) :
    ∀ s : List Char, likeMatch (q ++ ['%']) s = true ↔ q <+: s := by
  induction q with
  | nil =>
    intro s
    simp [likeMatch_pct_all, List.nil_prefix]
  | cons c q2 ih =>
    have hc : plainChar c := hq c (by simp)
    have hq2 : ∀ x ∈ q2, plainChar x := fun x hx => hq x (by simp [hx])
    intro s
    cases s with
    | nil =>
      rw [List.cons_append, likeMatch_plain_nil c (q2 ++ ['%']) hc.1]
      simp
    | cons d s2 =>
      rw [List.cons_append, likeMatch_plain_cons c (q2 ++ ['%']) d s2 hc.1 hc.2.2]
      have hund : (c == '_') = false := by
        simpa using hc.2.1
      rw [hund, Bool.false_or]
      simp only [Bool.and_eq_true, beq_iff_eq, ih hq2 s2, List.cons_prefix_cons]

/-- The interpolated pattern `%q%` with a plain `q` matches exactly the
texts containing `q` as a contiguous segment. -/
theorem likeMatch_wild (q s : List Char) (hq : ∀ c ∈ q, plainChar c) :
    likeMatch ('%' :: (q ++ ['%'])) s = true ↔ q <:+: s := by
  rw [likeMatch_pct_iff]
  constructor
  · rintro ⟨t, hts, hm⟩
    exact List.infix_iff_prefix_suffix.mpr ⟨t, (likeMatch_lit q hq t).mp hm, hts⟩
  · intro hinf
    rcases List.infix_iff_prefix_suffix.mp hinf with ⟨t, hpre, hsuf⟩
    exact ⟨t, hsuf, (likeMatch_lit q hq t).mpr hpre⟩

/-- Case-insensitive substring containment — the reading of "title or
description contains q case-insensitively" used by the specification. -/
def containsCI (q s : String) : Prop :=
  lowerChars q.data <:+: lowerChars s.data

instance (q s : String) : Decidable (containsCI q s) :=
  inferInstanceAs (Decidable (lowerChars q.data <:+: lowerChars s.data))

/-- The filter the specification describes for search: keep the rows whose
title or description contains the query case-insensitively. -/
def specSearchFilter (q : String) (store : List Advertisement) :
    List Advertisement :=
  store.filter (fun a =>
    decide (containsCI q a.title) || decide (containsCI q a.description))

/-- For a query with no wildcard characters (after lowercasing), the
`ILIKE` filter of the handler agrees with substring containment. -/
theorem adMatches_eq_containsCI (q : String)
    (hq : ∀ c ∈ lowerChars q.data, plainChar c) (a : Advertisement) :
    adMatches q a =
      (decide (containsCI q a.title) || decide (containsCI q a.description)) := by
  have hpat : lowerChars (searchPattern q) = '%' :: (lowerChars q.data ++ ['%']) := by
    simp [lowerChars, searchPattern]
  have key : ∀ s : String, ilike (searchPattern q) s = decide (containsCI q s) := by
    intro s
    have h := likeMatch_wild (lowerChars q.data) (lowerChars s.data) hq
    rw [ilike, hpat, Bool.eq_iff_iff, decide_eq_true_iff]
    exact h
  rw [adMatches, key a.title, key a.description]

/-! ### Helpers about slicing, sorting and the pipeline -/

/-- For bounds `0 ≤ a ≤ b`, the Python slice is the plain drop/take
window. -/
theorem pySlice_nonneg (l : List α) (a b : Int) (ha : 0 ≤ a) (hab : a ≤ b) :
    pySlice l a b = (l.drop a.toNat).take (b - a).toNat := by
  unfold pySlice
  dsimp only
  have hlen : (0 : Int) ≤ (l.length : Int) := by omega
  rw [if_neg (by omega : ¬ a < 0), if_neg (by omega : ¬ b < 0)]
  by_cases hA : a ≤ (l.length : Int)
  · rw [min_eq_left hA]
    by_cases hB : b ≤ (l.length : Int)
    · rw [min_eq_left hB]
    · rw [min_eq_right (by omega : (l.length : Int) ≤ b)]
      have hdl : (l.drop a.toNat).length = l.length - a.toNat := List.length_drop a.toNat l
      rw [List.take_of_length_le (by omega), List.take_of_length_le (by omega)]
  · rw [min_eq_right (by omega : (l.length : Int) ≤ a),
      min_eq_right (by omega : (l.length : Int) ≤ b)]
    rw [List.drop_eq_nil_of_le (by omega : l.length ≤ (l.length : Int).toNat),
      List.drop_eq_nil_of_le (by omega : l.length ≤ a.toNat)]
    simp

/-- The sort step permutes the rows, so it keeps their number. -/
theorem sortAds_length (l : List Advertisement) :
    (sortAds l).length = l.length :=
  (List.perm_insertionSort adBefore l).length_eq

/-- The sort step really sorts: in its output every later row was created
no later than every earlier row. -/
theorem sortAds_sorted (l : List Advertisement) :
    List.Pairwise adBefore (sortAds l) :=
  List.sorted_insertionSort adBefore l

/-- Mapping a function over a list relates pointwise to the original. -/
theorem forall2_map_self (R : α → α → Prop) (g : α → α) :
    ∀ l : List α, (∀ a ∈ l, R a (g a)) → List.Forall₂ R l (l.map g) := by
  intro l
  induction l with
  | nil => intro _; exact List.Forall₂.nil
  | cons x xs ih =>
    intro h
    exact List.Forall₂.cons (h x (by simp)) (ih (fun a ha => h a (by simp [ha])))

/-- Stripping the per-request flag from a rendered row recovers the row. -/
theorem stripView_view (a : Advertisement) (cur : Option Nat) :
    stripView (a.view cur) = a := rfl

/-- A failed authentication propagates out of the create handler. -/
theorem create_auth_error (verify : List Char → TokenResult)
    (hdr : Option (List Char)) (e : HttpError)
    (h : get_user_id_from_token verify hdr = .error e)
    (store : List Advertisement) (payload : CreatePayload) (newId now : Nat) :
    create_advertisement store verify hdr payload newId now = .error (.http e) := by
  unfold create_advertisement
  rw [h]

/-- A failed authentication propagates out of the update handler. -/
theorem update_auth_error (verify : List Char → TokenResult)
    (hdr : Option (List Char)) (e : HttpError)
    (h : get_user_id_from_token verify hdr = .error e)
    (store : List Advertisement) (ad_id : Nat) (payload : UpdatePayload) :
    update_advertisement store ad_id verify hdr payload = .error (.http e) := by
  unfold update_advertisement
  rw [h]

/-- A failed authentication propagates out of the delete handler. -/
theorem delete_auth_error (verify : List Char → TokenResult)
    (hdr : Option (List Char)) (e : HttpError)
    (h : get_user_id_from_token verify hdr = .error e)
    (store : List Advertisement) (ad_id : Nat) :
    delete_advertisement store ad_id verify hdr = .error (.http e) := by
  unfold delete_advertisement
  rw [h]

/-- A token that does not verify leaves the optional caller anonymous. -/
theorem resolveOptionalCaller_of_not_valid (verify : List Char → TokenResult)
    (h : List Char) (hbad : ∀ u, verify (extractBearerToken h) ≠ .valid u) :
    resolveOptionalCaller verify (some h) = none := by
  unfold resolveOptionalCaller get_user_id_from_token
  dsimp only
  by_cases hpre : startsWithChars (("Bearer ").data) h = true
  · rw [if_pos hpre]
    unfold decode_jwt_token
    cases hv : verify (extractBearerToken h) with
    | valid u => exact absurd hv (hbad u)
    | expired => rfl
    | malformed => rfl
  · rw [if_neg hpre]

/-- A header that carries the bearer marker but whose token verifies as
expired produces the 401 "Token expired" error. -/
theorem get_user_id_expired (verify : List Char → TokenResult) (h : List Char)
    (hpre : startsWithChars (("Bearer ").data) h = true)
    (hv : verify (extractBearerToken h) = .expired) :
    get_user_id_from_token verify (some h) = .error ⟨401, .text ("Token expired")⟩ := by
  unfold get_user_id_from_token decode_jwt_token
  dsimp only
  rw [if_pos hpre, hv]

/-- A header that carries the bearer marker but whose token verifies as
malformed produces the 401 "Invalid token" error. -/
theorem get_user_id_malformed (verify : List Char → TokenResult) (h : List Char)
    (hpre : startsWithChars (("Bearer ").data) h = true)
    (hv : verify (extractBearerToken h) = .malformed) :
    get_user_id_from_token verify (some h) = .error ⟨401, .text ("Invalid token")⟩ := by
  unfold get_user_id_from_token decode_jwt_token
  dsimp only
  rw [if_pos hpre, hv]

/-- A header that is absent or lacks the bearer marker produces the 401
"Authorization required" error; `authHeaderBad` states that shape. -/
def authHeaderBad : Option (List Char) → Prop
  | none => True
  | some h => startsWithChars (("Bearer ").data) h = false

theorem get_user_id_bad_header (verify : List Char → TokenResult)
    (hdr : Option (List Char)) (hbad : authHeaderBad hdr) :
    get_user_id_from_token verify hdr =
      .error ⟨401, .text ("Authorization required")⟩ := by
  cases hdr with
  | none => rfl
  | some h =>
    have hb : startsWithChars (("Bearer ").data) h = false := hbad
    unfold get_user_id_from_token
    dsimp only
    rw [if_neg (by simp [hb])]

/-- The update handler succeeds for the owner and rewrites exactly the
matching row through `applyUpdate`. -/
theorem update_ok_of_owner (store : List Advertisement) (ad_id uid : Nat)
    (verify : List Char → TokenResult) (hdr : Option (List Char))
    (payload : UpdatePayload) (ad : Advertisement)
    (hauth : get_user_id_from_token verify hdr = .ok uid)
    (hval : validateUpdate payload = .ok payload)
    (hfind : findAd store ad_id = some ad)
    (hown : ad.user_id = uid) :
    update_advertisement store ad_id verify hdr payload =
      .ok (ad.id, store.map (fun a => if a.id == ad_id then applyUpdate a payload else a)) := by
  unfold update_advertisement
  rw [hauth, hval, hfind]
  dsimp only
  rw [if_neg (by simp [hown])]

/-- The delete handler succeeds for the owner and removes the row. -/
theorem delete_ok_of_owner (store : List Advertisement) (ad_id uid : Nat)
    (verify : List Char → TokenResult) (hdr : Option (List Char))
    (ad : Advertisement)
    (hauth : get_user_id_from_token verify hdr = .ok uid)
    (hfind : findAd store ad_id = some ad)
    (hown : ad.user_id = uid) :
    delete_advertisement store ad_id verify hdr =
      .ok (store.filter (fun a => a.id != ad_id)) := by
  unfold delete_advertisement
  rw [hauth, hfind]
  dsimp only
  rw [if_neg (by simp [hown])]

/-! ### Claims -/

/-- C1 (code bug): the claim — and the spec table, the service's own index
page and both bundled client scripts — present the create body as
`{title, description}`, yet `CreateAdvertisementRequest` inherits a
required `owner` field, so the documented payload with a valid title
(3 to 200 characters) and description (at least 10) is rejected with a 400
listing `owner`, never reaching 201.  The theorem evaluates the failing
input: an authenticated create with the payload both bundled clients send. -/
theorem c1_documented_payload_rejected :
    create_advertisement [] (fun _ => TokenResult.valid 1)
      (some (("Bearer tok").data))
      ⟨some ("Sell bike"), some ("Barely used bike"), none⟩ 1 0 =
      .error (.http ⟨400, .validation ["owner"]⟩) ∧
    responseStatus 201
      (create_advertisement [] (fun _ => TokenResult.valid 1)
        (some (("Bearer tok").data))
        ⟨some ("Sell bike"), some ("Barely used bike"), none⟩ 1 0) = 400 :=
  ⟨rfl, rfl⟩

/-- C9: a request with `per_page = 0` reaches the pages computation
`(total + per_page - 1) // per_page`, which raises `ZeroDivisionError`;
the middleware translates the unhandled fault to 500, not to a 400
validation error. -/
theorem c9_per_page_zero_500 (store : List Advertisement) (page : Int)
    (f : Option Int) (verify : List Char → TokenResult)
    (hdr : Option (List Char)) :
    list_advertisements store page 0 f verify hdr = .error .zeroDivision ∧
    responseStatus 200 (list_advertisements store page 0 f verify hdr) = 500 := by
  have h : list_advertisements store page 0 f verify hdr = .error .zeroDivision := by
    unfold list_advertisements pyFloorDiv
    dsimp only
    rw [if_pos rfl]
  exact ⟨h, by rw [h]; rfl⟩

/-- C8: a missing `Authorization` header, or one without the `Bearer `
marker, makes every mutating handler answer 401 with the message
"Authorization required"; the handlers raise before touching the store,
so no listing is created, modified or deleted (an `.error` result carries
no store mutation in this model). -/
theorem c8_unauthorized_writes (store : List Advertisement) (ad_id : Nat)
    (verify : List Char → TokenResult) (hdr : Option (List Char))
    (cp : CreatePayload) (up : UpdatePayload) (newId now : Nat)
    (hbad : authHeaderBad hdr) :
    create_advertisement store verify hdr cp newId now =
      .error (.http ⟨401, .text ("Authorization required")⟩) ∧
    update_advertisement store ad_id verify hdr up =
      .error (.http ⟨401, .text ("Authorization required")⟩) ∧
    delete_advertisement store ad_id verify hdr =
      .error (.http ⟨401, .text ("Authorization required")⟩) ∧
    responseStatus 201 (create_advertisement store verify hdr cp newId now) = 401 ∧
    responseStatus 200 (update_advertisement store ad_id verify hdr up) = 401 ∧
    responseStatus 204 (delete_advertisement store ad_id verify hdr) = 401 := by
  have h := get_user_id_bad_header verify hdr hbad
  have hc := create_auth_error verify hdr _ h store cp newId now
  have hu := update_auth_error verify hdr _ h store ad_id up
  have hd := delete_auth_error verify hdr _ h store ad_id
  exact ⟨hc, hu, hd, by rw [hc]; rfl, by rw [hu]; rfl, by rw [hd]; rfl⟩

/-- C8 witness: the mutating endpoints with no `Authorization` header at
all, on an empty store. -/
theorem c8_unauthorized_writes_witness :
    create_advertisement [] (fun _ => TokenResult.valid 1) none
      ⟨none, none, none⟩ 1 0 =
      .error (.http ⟨401, .text ("Authorization required")⟩) ∧
    update_advertisement [] 1 (fun _ => TokenResult.valid 1) none
      ⟨none, none, none, none⟩ =
      .error (.http ⟨401, .text ("Authorization required")⟩) ∧
    delete_advertisement [] 1 (fun _ => TokenResult.valid 1) none =
      .error (.http ⟨401, .text ("Authorization required")⟩) ∧
    responseStatus 201 (create_advertisement [] (fun _ => TokenResult.valid 1)
      none ⟨none, none, none⟩ 1 0) = 401 ∧
    responseStatus 200 (update_advertisement [] 1 (fun _ => TokenResult.valid 1)
      none ⟨none, none, none, none⟩) = 401 ∧
    responseStatus 204 (delete_advertisement [] 1 (fun _ => TokenResult.valid 1)
      none) = 401 :=
  c8_unauthorized_writes [] 1 (fun _ => TokenResult.valid 1) none
    ⟨none, none, none⟩ ⟨none, none, none, none⟩ 1 0 trivial

/-- C3 counterexample: a GET /advertisements request carrying a bearer
token that fails verification answers 200 with the listing data — the
read handlers swallow the authentication error — refuting the claim that
a failing token yields 401 on every endpoint. -/
theorem c3_counterexample_read_ignores_bad_token :
    list_advertisements [] 1 10 none (fun _ => TokenResult.malformed)
      (some (("Bearer bad").data)) = .ok ⟨[], 0, 1, 10, 0⟩ ∧
    responseStatus 200 (list_advertisements [] 1 10 none
      (fun _ => TokenResult.malformed) (some (("Bearer bad").data))) = 200 :=
  ⟨rfl, rfl⟩

/-- C3 amended: on the mutating endpoints a present bearer token that
fails verification yields 401 with distinct reasons — "Token expired"
versus "Invalid token" — while on the read endpoints (list, get, search)
a failing token is swallowed and the request behaves exactly as if no
`Authorization` header had been sent. -/
theorem c3_amended_token_errors (store : List Advertisement) (ad_id : Nat)
    (page pp : Int) (f : Option Int) (q : String)
    (verify : List Char → TokenResult) (h : List Char)
    (cp : CreatePayload) (up : UpdatePayload) (newId now : Nat)
    (hpre : startsWithChars (("Bearer ").data) h = true) :
    (verify (extractBearerToken h) = .expired →
      create_advertisement store verify (some h) cp newId now =
        .error (.http ⟨401, .text ("Token expired")⟩) ∧
      update_advertisement store ad_id verify (some h) up =
        .error (.http ⟨401, .text ("Token expired")⟩) ∧
      delete_advertisement store ad_id verify (some h) =
        .error (.http ⟨401, .text ("Token expired")⟩)) ∧
    (verify (extractBearerToken h) = .malformed →
      create_advertisement store verify (some h) cp newId now =
        .error (.http ⟨401, .text ("Invalid token")⟩) ∧
      update_advertisement store ad_id verify (some h) up =
        .error (.http ⟨401, .text ("Invalid token")⟩) ∧
      delete_advertisement store ad_id verify (some h) =
        .error (.http ⟨401, .text ("Invalid token")⟩)) ∧
    ((∀ u, verify (extractBearerToken h) ≠ .valid u) →
      list_advertisements store page pp f verify (some h) =
        list_advertisements store page pp f verify none ∧
      get_advertisement store ad_id verify (some h) =
        get_advertisement store ad_id verify none ∧
      search_advertisements store q verify (some h) =
        search_advertisements store q verify none) := by
  refine ⟨?_, ?_, ?_⟩
  · intro hv
    have h1 := get_user_id_expired verify h hpre hv
    exact ⟨create_auth_error _ _ _ h1 store cp newId now,
      update_auth_error _ _ _ h1 store ad_id up,
      delete_auth_error _ _ _ h1 store ad_id⟩
  · intro hv
    have h1 := get_user_id_malformed verify h hpre hv
    exact ⟨create_auth_error _ _ _ h1 store cp newId now,
      update_auth_error _ _ _ h1 store ad_id up,
      delete_auth_error _ _ _ h1 store ad_id⟩
  · intro hnv
    have hres : resolveOptionalCaller verify (some h) = none :=
      resolveOptionalCaller_of_not_valid verify h hnv
    refine ⟨?_, ?_, ?_⟩
    · simp only [list_advertisements, hres,
        show resolveOptionalCaller verify none = none from rfl]
    · simp only [get_advertisement, hres,
        show resolveOptionalCaller verify none = none from rfl]
    · simp only [search_advertisements, hres,
        show resolveOptionalCaller verify none = none from rfl]

/-- C3 witness: an expired token on an empty store. -/
theorem c3_amended_token_errors_witness :
    ((fun _ => TokenResult.expired) (extractBearerToken (("Bearer t").data)) =
        TokenResult.expired →
      create_advertisement [] (fun _ => TokenResult.expired)
        (some (("Bearer t").data)) ⟨none, none, none⟩ 1 0 =
        .error (.http ⟨401, .text ("Token expired")⟩) ∧
      update_advertisement [] 1 (fun _ => TokenResult.expired)
        (some (("Bearer t").data)) ⟨none, none, none, none⟩ =
        .error (.http ⟨401, .text ("Token expired")⟩) ∧
      delete_advertisement [] 1 (fun _ => TokenResult.expired)
        (some (("Bearer t").data)) =
        .error (.http ⟨401, .text ("Token expired")⟩)) ∧
    ((fun _ => TokenResult.expired) (extractBearerToken (("Bearer t").data)) =
        TokenResult.malformed →
      create_advertisement [] (fun _ => TokenResult.expired)
        (some (("Bearer t").data)) ⟨none, none, none⟩ 1 0 =
        .error (.http ⟨401, .text ("Invalid token")⟩) ∧
      update_advertisement [] 1 (fun _ => TokenResult.expired)
        (some (("Bearer t").data)) ⟨none, none, none, none⟩ =
        .error (.http ⟨401, .text ("Invalid token")⟩) ∧
      delete_advertisement [] 1 (fun _ => TokenResult.expired)
        (some (("Bearer t").data)) =
        .error (.http ⟨401, .text ("Invalid token")⟩)) ∧
    ((∀ u, (fun _ => TokenResult.expired) (extractBearerToken (("Bearer t").data)) ≠
        TokenResult.valid u) →
      list_advertisements [] 1 10 none (fun _ => TokenResult.expired)
        (some (("Bearer t").data)) =
        list_advertisements [] 1 10 none (fun _ => TokenResult.expired) none ∧
      get_advertisement [] 1 (fun _ => TokenResult.expired)
        (some (("Bearer t").data)) =
        get_advertisement [] 1 (fun _ => TokenResult.expired) none ∧
      search_advertisements [] ("x") (fun _ => TokenResult.expired)
        (some (("Bearer t").data)) =
        search_advertisements [] ("x") (fun _ => TokenResult.expired) none) :=
  c3_amended_token_errors [] 1 1 10 none ("x") (fun _ => TokenResult.expired)
    (("Bearer t").data) ⟨none, none, none⟩ ⟨none, none, none, none⟩ 1 0 rfl

/-- C2: with a resolved caller and a body that validates, PATCH and
DELETE on an id first answer 404 when no row has that id (before any
ownership check), answer 403 with the respective message when the stored
owner differs from the caller — leaving the store untouched (an `.error`
result carries no store mutation in this model) — and succeed for the
owner: PATCH with 200 and the id, DELETE with 204 and an empty body. -/
theorem c2_owner_gating (store : List Advertisement) (ad_id uid : Nat)
    (verify : List Char → TokenResult) (hdr : Option (List Char))
    (payload : UpdatePayload)
    (hauth : get_user_id_from_token verify hdr = .ok uid)
    (hval : validateUpdate payload = .ok payload) :
    (findAd store ad_id = none →
      update_advertisement store ad_id verify hdr payload =
        .error (.http ⟨404, .text ("advertisement not found")⟩) ∧
      delete_advertisement store ad_id verify hdr =
        .error (.http ⟨404, .text ("advertisement not found")⟩)) ∧
    (∀ ad, findAd store ad_id = some ad → ad.user_id ≠ uid →
      update_advertisement store ad_id verify hdr payload =
        .error (.http ⟨403, .text ("You can only edit your own advertisements")⟩) ∧
      delete_advertisement store ad_id verify hdr =
        .error (.http ⟨403, .text ("You can only delete your own advertisements")⟩)) ∧
    (∀ ad, findAd store ad_id = some ad → ad.user_id = uid →
      update_advertisement store ad_id verify hdr payload =
        .ok (ad.id, store.map (fun a => if a.id == ad_id then applyUpdate a payload else a)) ∧
      responseStatus 200 (update_advertisement store ad_id verify hdr payload) = 200 ∧
      delete_advertisement store ad_id verify hdr =
        .ok (store.filter (fun a => a.id != ad_id)) ∧
      responseStatus 204 (delete_advertisement store ad_id verify hdr) = 204) := by
  refine ⟨?_, ?_, ?_⟩
  · intro hfind
    constructor
    · unfold update_advertisement
      rw [hauth, hval, hfind]
    · unfold delete_advertisement
      rw [hauth, hfind]
  · intro ad hfind hne
    constructor
    · unfold update_advertisement
      rw [hauth, hval, hfind]
      dsimp only
      rw [if_pos hne]
    · unfold delete_advertisement
      rw [hauth, hfind]
      dsimp only
      rw [if_pos hne]
  · intro ad hfind hown
    have hupd := update_ok_of_owner store ad_id uid verify hdr payload ad
      hauth hval hfind hown
    have hdel := delete_ok_of_owner store ad_id uid verify hdr ad
      hauth hfind hown
    exact ⟨hupd, by rw [hupd]; rfl, hdel, by rw [hdel]; rfl⟩

/-- C2 witness: a one-row store owned by user 1, the owner PATCHing with
an empty update body and DELETEing. -/
theorem c2_owner_gating_witness :
    (findAd [⟨1, "ttt", "dddddddddd", 0, 1⟩] 1 = none →
      update_advertisement [⟨1, "ttt", "dddddddddd", 0, 1⟩] 1
        (fun _ => TokenResult.valid 1) (some (("Bearer t").data))
        ⟨none, none, none, none⟩ =
        .error (.http ⟨404, .text ("advertisement not found")⟩) ∧
      delete_advertisement [⟨1, "ttt", "dddddddddd", 0, 1⟩] 1
        (fun _ => TokenResult.valid 1) (some (("Bearer t").data)) =
        .error (.http ⟨404, .text ("advertisement not found")⟩)) ∧
    (∀ ad, findAd [⟨1, "ttt", "dddddddddd", 0, 1⟩] 1 = some ad →
      ad.user_id ≠ 1 →
      update_advertisement [⟨1, "ttt", "dddddddddd", 0, 1⟩] 1
        (fun _ => TokenResult.valid 1) (some (("Bearer t").data))
        ⟨none, none, none, none⟩ =
        .error (.http ⟨403, .text ("You can only edit your own advertisements")⟩) ∧
      delete_advertisement [⟨1, "ttt", "dddddddddd", 0, 1⟩] 1
        (fun _ => TokenResult.valid 1) (some (("Bearer t").data)) =
        .error (.http ⟨403, .text ("You can only delete your own advertisements")⟩)) ∧
    (∀ ad, findAd [⟨1, "ttt", "dddddddddd", 0, 1⟩] 1 = some ad →
      ad.user_id = 1 →
      update_advertisement [⟨1, "ttt", "dddddddddd", 0, 1⟩] 1
        (fun _ => TokenResult.valid 1) (some (("Bearer t").data))
        ⟨none, none, none, none⟩ =
        .ok (ad.id, List.map (fun a => if a.id == 1 then applyUpdate a ⟨none, none, none, none⟩ else a)
          [⟨1, "ttt", "dddddddddd", 0, 1⟩]) ∧
      responseStatus 200 (update_advertisement [⟨1, "ttt", "dddddddddd", 0, 1⟩] 1
        (fun _ => TokenResult.valid 1) (some (("Bearer t").data))
        ⟨none, none, none, none⟩) = 200 ∧
      delete_advertisement [⟨1, "ttt", "dddddddddd", 0, 1⟩] 1
        (fun _ => TokenResult.valid 1) (some (("Bearer t").data)) =
        .ok (List.filter (fun a => a.id != 1) [⟨1, "ttt", "dddddddddd", 0, 1⟩]) ∧
      responseStatus 204 (delete_advertisement [⟨1, "ttt", "dddddddddd", 0, 1⟩] 1
        (fun _ => TokenResult.valid 1) (some (("Bearer t").data))) = 204) :=
  c2_owner_gating [⟨1, "ttt", "dddddddddd", 0, 1⟩] 1 1
    (fun _ => TokenResult.valid 1) (some (("Bearer t").data))
    ⟨none, none, none, none⟩ rfl rfl

/-- C10: a successful PATCH by the owner changes at most the matching
row's title and description — even when the accepted update body carries
`owner` or `created_at` values — while the row's id, owner identifier and
creation timestamp, and every other row, are unchanged. -/
theorem c10_update_frame (store : List Advertisement) (ad_id uid : Nat)
    (verify : List Char → TokenResult) (hdr : Option (List Char))
    (payload : UpdatePayload) (ad : Advertisement)
    (hauth : get_user_id_from_token verify hdr = .ok uid)
    (hval : validateUpdate payload = .ok payload)
    (hfind : findAd store ad_id = some ad)
    (hown : ad.user_id = uid) :
    update_advertisement store ad_id verify hdr payload =
      .ok (ad.id, store.map (fun a => if a.id == ad_id then applyUpdate a payload else a)) ∧
    List.Forall₂ (fun a a2 =>
        a2.id = a.id ∧ a2.user_id = a.user_id ∧ a2.created_at = a.created_at ∧
        (a.id ≠ ad_id → a2 = a) ∧
        (a.id = ad_id → a2.title = payload.title.getD a.title ∧
          a2.description = payload.description.getD a.description))
      store (store.map (fun a => if a.id == ad_id then applyUpdate a payload else a)) := by
  refine ⟨update_ok_of_owner store ad_id uid verify hdr payload ad hauth hval hfind hown, ?_⟩
  apply forall2_map_self
  intro a _
  by_cases hid : a.id = ad_id
  · have hb : (a.id == ad_id) = true := by simpa using hid
    rw [if_pos hb]
    exact ⟨rfl, rfl, rfl, fun hcon => absurd hid hcon, fun _ => ⟨rfl, rfl⟩⟩
  · rw [if_neg (by simpa using hid)]
    exact ⟨rfl, rfl, rfl, fun _ => rfl, fun hcon => absurd hcon hid⟩

/-- C10 witness: the owner PATCHes a one-row store with a body that
supplies new title, description, owner and creation-timestamp values. -/
theorem c10_update_frame_witness :
    update_advertisement [⟨1, "ttt", "dddddddddd", 7, 1⟩] 1
      (fun _ => TokenResult.valid 1) (some (("Bearer t").data))
      ⟨some ("new title"), some ("new description"), some ("Eve"), some 99⟩ =
      .ok (1, List.map (fun a => if a.id == 1 then
          applyUpdate a ⟨some ("new title"), some ("new description"), some ("Eve"), some 99⟩
        else a) [⟨1, "ttt", "dddddddddd", 7, 1⟩]) ∧
    List.Forall₂ (fun a a2 =>
        a2.id = a.id ∧ a2.user_id = a.user_id ∧ a2.created_at = a.created_at ∧
        (a.id ≠ 1 → a2 = a) ∧
        (a.id = 1 →
          a2.title = (some ("new title")).getD a.title ∧
          a2.description = (some ("new description")).getD a.description))
      [⟨1, "ttt", "dddddddddd", 7, 1⟩]
      (List.map (fun a => if a.id == 1 then
          applyUpdate a ⟨some ("new title"), some ("new description"), some ("Eve"), some 99⟩
        else a) [⟨1, "ttt", "dddddddddd", 7, 1⟩]) :=
  c10_update_frame [⟨1, "ttt", "dddddddddd", 7, 1⟩] 1 1
    (fun _ => TokenResult.valid 1) (some (("Bearer t").data))
    ⟨some ("new title"), some ("new description"), some ("Eve"), some 99⟩
    ⟨1, "ttt", "dddddddddd", 7, 1⟩ rfl rfl rfl rfl

/-- C5 counterexample: two rows share a creation timestamp and the list
endpoint returns them in stored order — id 1 before id 2 — so ties are
not ordered by identifier descending as the claim requires (the query
orders by `created_at` alone and promises nothing for ties; the model
realizes one admissible physical order). -/
theorem c5_counterexample_no_tiebreak :
    list_advertisements [⟨1, "ttt", "dddddddddd", 5, 1⟩, ⟨2, "uuu", "eeeeeeeeee", 5, 2⟩]
      1 10 none (fun _ => TokenResult.malformed) none =
      .ok ⟨[⟨1, "ttt", "dddddddddd", 5, 1, false⟩, ⟨2, "uuu", "eeeeeeeeee", 5, 2, false⟩],
        2, 1, 10, 1⟩ ∧
    ¬ List.Pairwise (fun x y : AdView =>
        y.created_at < x.created_at ∨ (x.created_at = y.created_at ∧ y.id < x.id))
      [⟨1, "ttt", "dddddddddd", 5, 1, false⟩, ⟨2, "uuu", "eeeeeeeeee", 5, 2, false⟩] :=
  ⟨rfl, by decide⟩

/-- C5 amended: the sequences returned by the list and search endpoints
are sorted by creation timestamp descending (every later element is no
newer than every earlier one); the relative order of equal timestamps is
not specified by the query, which applies no identifier tie-break. -/
theorem c5_amended_sort_order (store : List Advertisement) (page pp : Int)
    (f : Option Int) (q : String) (verify : List Char → TokenResult)
    (hdr : Option (List Char)) :
    (∀ r, list_advertisements store page pp f verify hdr = .ok r →
      List.Pairwise (fun x y : AdView => y.created_at ≤ x.created_at)
        r.advertisements) ∧
    (∀ r, search_advertisements store q verify hdr = .ok r →
      List.Pairwise (fun x y : AdView => y.created_at ≤ x.created_at)
        r.results) := by
  constructor
  · intro r
    unfold list_advertisements
    dsimp only
    split
    · intro hr
      simp at hr
    · intro hr
      injection hr with h
      rw [← h]
      dsimp only
      apply List.pairwise_map.mpr
      have hsub : List.Sublist
          (pySlice (sortAds (filteredAds store f)) ((page - 1) * pp) ((page - 1) * pp + pp))
          (sortAds (filteredAds store f)) := by
        unfold pySlice
        dsimp only
        exact (List.take_sublist _ _).trans (List.drop_sublist _ _)
      exact (sortAds_sorted (filteredAds store f)).sublist hsub
  · intro r
    unfold search_advertisements
    split
    · intro hr
      simp at hr
    · intro hr
      injection hr with h
      rw [← h]
      dsimp only
      apply List.pairwise_map.mpr
      exact sortAds_sorted (store.filter (adMatches q))

/-- C5 witness: the amended ordering at a concrete two-row store and a
concrete search. -/
theorem c5_amended_sort_order_witness :
    (∀ r, list_advertisements [⟨1, "ttt", "dddddddddd", 5, 1⟩, ⟨2, "uuu", "eeeeeeeeee", 9, 2⟩]
        1 10 none (fun _ => TokenResult.malformed) none = .ok r →
      List.Pairwise (fun x y : AdView => y.created_at ≤ x.created_at)
        r.advertisements) ∧
    (∀ r, search_advertisements [⟨1, "ttt", "dddddddddd", 5, 1⟩, ⟨2, "uuu", "eeeeeeeeee", 9, 2⟩]
        ("ttt") (fun _ => TokenResult.malformed) none = .ok r →
      List.Pairwise (fun x y : AdView => y.created_at ≤ x.created_at)
        r.results) :=
  c5_amended_sort_order
    [⟨1, "ttt", "dddddddddd", 5, 1⟩, ⟨2, "uuu", "eeeeeeeeee", 9, 2⟩]
    1 10 none ("ttt") (fun _ => TokenResult.malformed) none

/-- C6 counterexample: the query is interpolated into the `ILIKE` pattern
unescaped, so its `_` acts as a one-character wildcard: searching for
`a_c` returns the row titled `abc` even though `a_c` is not a
case-insensitive substring of its title or description — the query is a
pattern, not literal text. -/
theorem c6_counterexample_wildcard_query :
    search_advertisements [⟨1, "abc", "dddddddddd", 0, 7⟩] ("a_c")
      (fun _ => TokenResult.malformed) none =
      .ok ⟨"a_c", [⟨1, "abc", "dddddddddd", 0, 7, false⟩], 1⟩ ∧
    ¬ containsCI ("a_c") ("abc") ∧ ¬ containsCI ("a_c") ("dddddddddd") :=
  ⟨rfl, by decide, by decide⟩

/-- C6 amended: for a non-empty query whose lowercased text contains none
of the characters `ILIKE` treats specially (`%`, `_`, backslash), search
returns exactly the rows whose title or description contains the query as
a case-insensitive substring — sorted newest first — together with their
count. -/
theorem c6_amended_search_exact (store : List Advertisement) (q : String)
    (verify : List Char → TokenResult) (hdr : Option (List Char))
    (hne : ¬ q = "") (hq : ∀ c ∈ lowerChars q.data, plainChar c) :
    search_advertisements store q verify hdr =
      .ok ⟨q, (sortAds (specSearchFilter q store)).map
          (fun a => a.view (resolveOptionalCaller verify hdr)),
        (specSearchFilter q store).length⟩ := by
  unfold search_advertisements specSearchFilter
  rw [if_neg hne]
  dsimp only
  rw [ List.filter_congr (fun a _ => adMatches_eq_containsCI q hq a),
    sortAds_length]

/-- C6 witness: searching a two-row store for `bike` finds exactly the
matching row. -/
theorem c6_amended_search_exact_witness :
    search_advertisements
      [⟨1, "Sell Bike", "Barely used bike", 3, 1⟩, ⟨2, "Sell car", "A red automobile", 4, 2⟩]
      ("bike") (fun _ => TokenResult.malformed) none =
      .ok ⟨"bike",
        (sortAds (specSearchFilter ("bike")
          [⟨1, "Sell Bike", "Barely used bike", 3, 1⟩, ⟨2, "Sell car", "A red automobile", 4, 2⟩])).map
          (fun a => a.view (resolveOptionalCaller (fun _ => TokenResult.malformed) none)),
        (specSearchFilter ("bike")
          [⟨1, "Sell Bike", "Barely used bike", 3, 1⟩, ⟨2, "Sell car", "A red automobile", 4, 2⟩]).length⟩ :=
  c6_amended_search_exact
    [⟨1, "Sell Bike", "Barely used bike", 3, 1⟩, ⟨2, "Sell car", "A red automobile", 4, 2⟩]
    ("bike") (fun _ => TokenResult.malformed) none (by decide) (by decide)

/-- C7: for one fixed store, the list and get endpoints return the same
rows whether the caller is anonymous or resolved — the caller never
filters results — and only the `is_owner` flag differs: it is false for
the anonymous request and, for a resolved caller (a server-assigned id,
hence nonzero), true exactly on the rows the caller owns. -/
theorem c7_reads_caller_independent (store : List Advertisement)
    (page pp : Int) (f : Option Int) (ad_id : Nat)
    (v1 v2 : List Char → TokenResult) (h1 h2 : Option (List Char)) (u : Nat)
    (ha : resolveOptionalCaller v1 h1 = none)
    (hb : resolveOptionalCaller v2 h2 = some u) (hu : u ≠ 0) :
    (∀ r1 r2, list_advertisements store page pp f v1 h1 = .ok r1 →
        list_advertisements store page pp f v2 h2 = .ok r2 →
      r1.advertisements.map stripView = r2.advertisements.map stripView ∧
      r1.total = r2.total ∧ r1.pages = r2.pages ∧
      (∀ x ∈ r1.advertisements, x.is_owner = false) ∧
      (∀ x ∈ r2.advertisements, x.is_owner = (u == x.user_id))) ∧
    (∀ e, get_advertisement store ad_id v1 h1 = .error e ↔
        get_advertisement store ad_id v2 h2 = .error e) ∧
    (∀ w1 w2, get_advertisement store ad_id v1 h1 = .ok w1 →
        get_advertisement store ad_id v2 h2 = .ok w2 →
      stripView w1 = stripView w2 ∧ w1.is_owner = false ∧
      w2.is_owner = (u == w2.user_id)) := by
  refine ⟨?_, ?_, ?_⟩
  · intro r1 r2 hr1 hr2
    simp only [list_advertisements, ha] at hr1
    simp only [list_advertisements, hb] at hr2
    split at hr1
    · simp at hr1
    · rename_i pages heq
      rw [heq] at hr2
      dsimp only at hr2
      injection hr1 with e1
      injection hr2 with e2
      subst e1
      subst e2
      refine ⟨?_, rfl, rfl, ?_, ?_⟩
      · dsimp only
        rw [List.map_map, List.map_map]
        rfl
      · intro x hx
        obtain ⟨a, _, rfl⟩ := List.mem_map.mp hx
        rfl
      · intro x hx
        obtain ⟨a, _, rfl⟩ := List.mem_map.mp hx
        show isOwnerFlag (some u) a.user_id = _
        unfold isOwnerFlag
        dsimp only
        rw [if_neg hu]
        rfl
  · intro e
    cases hfind : findAd store ad_id with
    | none => simp only [get_advertisement, hfind]
    | some ad => simp [get_advertisement, hfind]
  · intro w1 w2 hw1 hw2
    cases hfind : findAd store ad_id with
    | none =>
      rw [get_advertisement, hfind] at hw1
      simp at hw1
    | some ad =>
      rw [get_advertisement, hfind] at hw1
      rw [get_advertisement, hfind] at hw2
      rw [ha] at hw1
      rw [hb] at hw2
      injection hw1 with e1
      injection hw2 with e2
      subst e1
      subst e2
      refine ⟨rfl, rfl, ?_⟩
      show isOwnerFlag (some u) ad.user_id = _
      unfold isOwnerFlag
      dsimp only
      rw [if_neg hu]
      rfl

/-- C7 witness: the spec scenario — two users own one row each; an
anonymous request and user 1's request see the same rows. -/
theorem c7_reads_caller_independent_witness :
    (∀ r1 r2, list_advertisements
        [⟨1, "ttt", "dddddddddd", 1, 1⟩, ⟨2, "uuu", "eeeeeeeeee", 2, 2⟩]
        1 10 none (fun _ => TokenResult.malformed) none = .ok r1 →
      list_advertisements
        [⟨1, "ttt", "dddddddddd", 1, 1⟩, ⟨2, "uuu", "eeeeeeeeee", 2, 2⟩]
        1 10 none (fun _ => TokenResult.valid 1) (some (("Bearer t").data)) = .ok r2 →
      r1.advertisements.map stripView = r2.advertisements.map stripView ∧
      r1.total = r2.total ∧ r1.pages = r2.pages ∧
      (∀ x ∈ r1.advertisements, x.is_owner = false) ∧
      (∀ x ∈ r2.advertisements, x.is_owner = (1 == x.user_id))) ∧
    (∀ e, get_advertisement
        [⟨1, "ttt", "dddddddddd", 1, 1⟩, ⟨2, "uuu", "eeeeeeeeee", 2, 2⟩] 1
        (fun _ => TokenResult.malformed) none = .error e ↔
      get_advertisement
        [⟨1, "ttt", "dddddddddd", 1, 1⟩, ⟨2, "uuu", "eeeeeeeeee", 2, 2⟩] 1
        (fun _ => TokenResult.valid 1) (some (("Bearer t").data)) = .error e) ∧
    (∀ w1 w2, get_advertisement
        [⟨1, "ttt", "dddddddddd", 1, 1⟩, ⟨2, "uuu", "eeeeeeeeee", 2, 2⟩] 1
        (fun _ => TokenResult.malformed) none = .ok w1 →
      get_advertisement
        [⟨1, "ttt", "dddddddddd", 1, 1⟩, ⟨2, "uuu", "eeeeeeeeee", 2, 2⟩] 1
        (fun _ => TokenResult.valid 1) (some (("Bearer t").data)) = .ok w2 →
      stripView w1 = stripView w2 ∧ w1.is_owner = false ∧
      w2.is_owner = (1 == w2.user_id)) :=
  c7_reads_caller_independent
    [⟨1, "ttt", "dddddddddd", 1, 1⟩, ⟨2, "uuu", "eeeeeeeeee", 2, 2⟩]
    1 10 none 1 (fun _ => TokenResult.malformed) (fun _ => TokenResult.valid 1)
    none (some (("Bearer t").data)) 1 rfl rfl (by decide)

/-- C4 counterexample: with two stored rows and `per_page = 1` the valid
pages are 1 and 2, so `page = -1` is out of range; the claim demands an
empty item list, but Python slicing interprets the negative window
`[-2:-1]` from the end of the list and the endpoint returns one row. -/
theorem c4_counterexample_negative_page :
    list_advertisements [⟨1, "ttt", "dddddddddd", 2, 1⟩, ⟨2, "uuu", "eeeeeeeeee", 1, 1⟩]
      (-1) 1 none (fun _ => TokenResult.malformed) none =
      .ok ⟨[⟨1, "ttt", "dddddddddd", 2, 1, false⟩], 2, -1, 1, 2⟩ ∧
    ¬ ([⟨1, "ttt", "dddddddddd", 2, 1, false⟩] : List AdView) = [] :=
  ⟨rfl, by decide⟩

/-- C4 amended: for `page ≥ 1` and `per_page ≥ 1` the list endpoint
answers 200 with `total` the size of the filtered set, the items exactly
the window starting at `(page-1)*per_page` of length `per_page` of the
sorted filtered set, `pages` the ceiling of `total / per_page`, and an
empty item list whenever the window starts at or beyond `total`; for
other integers the claim fails (`per_page = 0` faults, negative pages
slice from the end). -/
theorem c4_amended_pagination (store : List Advertisement) (page per_page : Int)
    (f : Option Int) (verify : List Char → TokenResult)
    (hdr : Option (List Char)) (hp : 1 ≤ page) (hpp : 1 ≤ per_page) :
    ∃ r, list_advertisements store page per_page f verify hdr = .ok r ∧
      r.total = (filteredAds store f).length ∧
      r.advertisements =
        (((sortAds (filteredAds store f)).drop ((page - 1) * per_page).toNat).take
          per_page.toNat).map (fun a => a.view (resolveOptionalCaller verify hdr)) ∧
      r.pages = ⌈(((filteredAds store f).length : ℚ) / (per_page : ℚ))⌉ ∧
      (((filteredAds store f).length : Int) ≤ (page - 1) * per_page →
        r.advertisements = []) ∧
      responseStatus 200 (list_advertisements store page per_page f verify hdr) = 200 := by
  have hpp0 : per_page ≠ 0 := by omega
  have hstart : 0 ≤ (page - 1) * per_page := mul_nonneg (by omega) (by omega)
  have hs := pySlice_nonneg (sortAds (filteredAds store f)) ((page - 1) * per_page)
    ((page - 1) * per_page + per_page) hstart (by omega)
  have htoNat : ((page - 1) * per_page + per_page - (page - 1) * per_page).toNat =
      per_page.toNat := by omega
  have hrun : list_advertisements store page per_page f verify hdr =
      .ok ⟨(pySlice (sortAds (filteredAds store f)) ((page - 1) * per_page)
            ((page - 1) * per_page + per_page)).map
          (fun a => a.view (resolveOptionalCaller verify hdr)),
        (sortAds (filteredAds store f)).length, page, per_page,
        Int.fdiv (((sortAds (filteredAds store f)).length : Int) + per_page - 1)
          per_page⟩ := by
    unfold list_advertisements pyFloorDiv
    dsimp only
    rw [if_neg hpp0]
  refine ⟨_, hrun, ?_, ?_, ?_, ?_, ?_⟩
  · exact sortAds_length _
  · dsimp only
    rw [hs, htoNat]
  · dsimp only
    rw [sortAds_length]
    set F : Int := ((filteredAds store f).length : Int) with hF
    set D : Int := Int.fdiv (F + per_page - 1) per_page with hD
    have hdm := Int.fdiv_add_fmod (F + per_page - 1) per_page
    rw [← hD] at hdm
    have hm0 : 0 ≤ (F + per_page - 1).fmod per_page :=
      Int.fmod_nonneg (by omega) (by omega)
    have hmlt := Int.fmod_lt_of_pos (F + per_page - 1)
      (show (0 : Int) < per_page by omega)
    set P : Int := per_page * D with hP
    have hchar1 : F ≤ P := by omega
    have hchar2 : P < F + per_page := by omega
    have hQpp : (0 : ℚ) < (per_page : ℚ) := by
      exact_mod_cast (show (0 : Int) < per_page by omega)
    symm
    rw [Int.ceil_eq_iff]
    constructor
    · rw [lt_div_iff₀ hQpp]
      have e : (D - 1) * per_page = P - per_page := by rw [hP]; ring
      have h3 : (D - 1) * per_page < F := by rw [e]; omega
      rw [hF] at h3
      exact_mod_cast h3
    · rw [div_le_iff₀ hQpp]
      have e2 : D * per_page = P := by rw [hP]; ring
      have h5 : F ≤ D * per_page := by rw [e2]; omega
      rw [hF] at h5
      exact_mod_cast h5
  · intro hle
    dsimp only
    rw [hs]
    have hnil : (sortAds (filteredAds store f)).drop ((page - 1) * per_page).toNat = [] :=
      List.drop_eq_nil_of_le (by rw [sortAds_length]; omega)
    rw [hnil]
    simp
  · rw [hrun]
    rfl

/-- C4 witness: the spec scenario — three listings, `page = 2`,
`per_page = 1`. -/
theorem c4_amended_pagination_witness :
    ∃ r, list_advertisements
        [⟨1, "ttt", "dddddddddd", 1, 1⟩, ⟨2, "uuu", "eeeeeeeeee", 2, 1⟩,
          ⟨3, "vvv", "ffffffffff", 3, 1⟩]
        2 1 none (fun _ => TokenResult.malformed) none = .ok r ∧
      r.total = (filteredAds
        [⟨1, "ttt", "dddddddddd", 1, 1⟩, ⟨2, "uuu", "eeeeeeeeee", 2, 1⟩,
          ⟨3, "vvv", "ffffffffff", 3, 1⟩] none).length ∧
      r.advertisements =
        (((sortAds (filteredAds
            [⟨1, "ttt", "dddddddddd", 1, 1⟩, ⟨2, "uuu", "eeeeeeeeee", 2, 1⟩,
              ⟨3, "vvv", "ffffffffff", 3, 1⟩] none)).drop
            (((2 : Int) - 1) * 1).toNat).take (1 : Int).toNat).map
          (fun a => a.view (resolveOptionalCaller (fun _ => TokenResult.malformed) none)) ∧
      r.pages = ⌈(((filteredAds
          [⟨1, "ttt", "dddddddddd", 1, 1⟩, ⟨2, "uuu", "eeeeeeeeee", 2, 1⟩,
            ⟨3, "vvv", "ffffffffff", 3, 1⟩] none).length : ℚ) / ((1 : Int) : ℚ))⌉ ∧
      (((filteredAds
          [⟨1, "ttt", "dddddddddd", 1, 1⟩, ⟨2, "uuu", "eeeeeeeeee", 2, 1⟩,
            ⟨3, "vvv", "ffffffffff", 3, 1⟩] none).length : Int) ≤ ((2 : Int) - 1) * 1 →
        r.advertisements = []) ∧
      responseStatus 200 (list_advertisements
        [⟨1, "ttt", "dddddddddd", 1, 1⟩, ⟨2, "uuu", "eeeeeeeeee", 2, 1⟩,
          ⟨3, "vvv", "ffffffffff", 3, 1⟩]
        2 1 none (fun _ => TokenResult.malformed) none) = 200 :=
  c4_amended_pagination
    [⟨1, "ttt", "dddddddddd", 1, 1⟩, ⟨2, "uuu", "eeeeeeeeee", 2, 1⟩,
      ⟨3, "vvv", "ffffffffff", 3, 1⟩]
    2 1 none (fun _ => TokenResult.malformed) none (by decide) (by decide)
